import Mathlib

/-!
Shallow embedding of the three browser-verification scripts of this
repository:

* `jules-scratch/verification/verify_lazy_loading.py`
* `jules-scratch/verification/verify_mobile_products.py`
* `jules-scratch/phase2_verification/verify_mobile_home.py`

Each Python script is a single `async def main()` that launches a browser,
opens a page, runs a linear sequence of automation steps inside a
`try:` block, catches any exception in a single `except Exception` handler
(printing the error and taking a diagnostic screenshot), and closes the
browser in a `finally:` block.

The embedding translates each script body into a `List Step` taken
literally from the source, and `runMain` mirrors the `try`/`except`/
`finally` control flow.  The external automation library (Playwright) is
not part of the repository; its behaviour is the environment, modelled by
a `World` that decides, per step, whether the library call succeeds and
otherwise which exception class it raises (navigation timeout, visibility
assertion failure, missing click target, screenshot failure).  Real time
is abstracted away: a step that would exceed its timeout is modelled as
the corresponding failure outcome.  The model starts at the point where
the browser session is already open (the `Running` state): browser
launch and page creation precede the `try` block in every script.
-/

/-- An accessible role/name element query, as built by the scripts with
`page.get_by_role(role, name=..., exact=...)`; `within` records the
enclosing role scope of a chained locator such as
`page.get_by_role("navigation").get_by_role("link", name="Products")`. -/
structure Query where
  role : String
  name : Option String
  exactMatch : Bool
  within : Option String
deriving DecidableEq, Repr

/-- The exception kinds the automation library can raise into a script:
`navigationError` (`page.goto` did not settle within its timeout),
`assertionError` (`expect(...).to_be_visible` timed out),
`elementNotFoundError` (a click target is absent), and
`screenshotError` (a generic library failure while writing a screenshot
file).  All are subclasses of `Exception` in Python, so all are caught by
the scripts' `except Exception` handler when raised inside the `try`
body. -/
inductive PWError where
  | navigationError
  | assertionError
  | elementNotFoundError
  | screenshotError
deriving DecidableEq, Repr

/-- One automation step of a script body, in source order.  Timeouts are
the literal millisecond arguments of the source; `expectVisible` with
`none` is a visibility assertion made without an explicit timeout
argument (the library default applies). -/
inductive Step where
  | goto (url : String) (timeout : Nat)
  | expectVisible (q : Query) (timeout : Option Nat)
  | click (q : Query)
  | screenshot (path : String)
  | printMsg (msg : String)
deriving DecidableEq, Repr

/-- Browser-context configuration (`browser.new_context(...)`) used by the
two mobile scripts for iPhone X viewport emulation. -/
structure ViewportConfig where
  width : Nat
  height : Nat
  isMobile : Bool
  userAgent : String
deriving DecidableEq, Repr

/-- A script: its optional emulated context, its `try`-body steps in
declared order, and the error-screenshot path used by its `except`
handler. -/
structure Script where
  context : Option ViewportConfig
  steps : List Step
  errorPath : String
deriving DecidableEq, Repr

/-- The iPhone X context shared by the two mobile scripts. -/
def iphoneXConfig : ViewportConfig :=
  ⟨375, 812, true,
    "Mozilla/5.0 (iPhone; CPU iPhone OS 13_5 like Mac OS X) AppleWebKit/605.1.15 (KHTML, like Gecko) Version/13.1.1 Mobile/15E148 Safari/604.1"⟩

/-- jules-scratch/verification/verify_lazy_loading.py, body of `main`. -/
def lazyScript : Script :=
  ⟨none,
    [ .goto "http://localhost:5173/" 60000,
      .expectVisible ⟨"heading", some "Capture Every Moment", false, none⟩ none,
      .printMsg "✅ Home page loaded successfully.",
      .click ⟨"link", some "Products", false, some "navigation"⟩,
      .expectVisible ⟨"heading", some "Products", true, none⟩ none,
      .printMsg "✅ Products page loaded successfully.",
      .click ⟨"link", some "Sign in", false, none⟩,
      .expectVisible ⟨"heading", some "Sign In", false, none⟩ none,
      .printMsg "✅ Login page loaded successfully.",
      .goto "http://localhost:5173/admin/login" 60000,
      .expectVisible ⟨"heading", some "Admin Login", false, none⟩ none,
      .printMsg "✅ Admin login page loaded successfully.",
      .screenshot "jules-scratch/verification/lazy_loading_success.png",
      .printMsg "📸 Screenshot taken. Verification successful!" ],
    "jules-scratch/verification/lazy_loading_error.png"⟩

/-- jules-scratch/phase2_verification/verify_mobile_home.py, body of
`main`. -/
def mobileHomeScript : Script :=
  ⟨some iphoneXConfig,
    [ .goto "http://localhost:5173/" 60000,
      .expectVisible ⟨"heading", some "Capture Every Moment", false, none⟩ (some 30000),
      .printMsg "✅ Home page loaded successfully.",
      .screenshot "jules-scratch/phase2_verification/mobile_home_analysis.png",
      .printMsg "Screenshot saved to jules-scratch/phase2_verification/mobile_home_analysis.png" ],
    "jules-scratch/phase2_verification/mobile_home_error.png"⟩

/-- jules-scratch/verification/verify_mobile_products.py, body of
`main`. -/
def mobileProductsScript : Script :=
  ⟨some iphoneXConfig,
    [ .goto "http://localhost:5174/products" 60000,
      .expectVisible ⟨"heading", some "Products", true, none⟩ (some 30000),
      .printMsg "✅ Products page loaded successfully.",
      .screenshot "jules-scratch/verification/mobile_products_before.png",
      .printMsg "Screenshot saved to jules-scratch/verification/mobile_products_before.png" ],
    "jules-scratch/verification/mobile_products_error.png"⟩

/-- The environment: what the external automation library does at each
call.  Each field takes the index of the step being executed (the page
state may differ from step to step) and answers whether the call
succeeds; `shotOk` says whether writing a screenshot to a path succeeds
(used for body screenshots and for the `except`-handler screenshot). -/
structure World where
  reachable : Nat → String → Bool
  visibleElem : Nat → Query → Bool
  presentElem : Nat → Query → Bool
  shotOk : String → Bool

/-- Outcome of executing one step at index `i` under world `w`: `none` on
success, otherwise the exception the library raises.  The error kind is
fixed by the operation, per the library contract: `goto` raises a
navigation (timeout) error, `to_be_visible` an assertion error, `click` an
element-not-found error, `screenshot` a screenshot error; `print` cannot
fail. -/
def stepOutcome (w : World) (i : Nat) : Step → Option PWError
  | .goto url _ => if w.reachable i url then none else some .navigationError
  | .expectVisible q _ => if w.visibleElem i q then none else some .assertionError
  | .click q => if w.presentElem i q then none else some .elementNotFoundError
  | .screenshot p => if w.shotOk p then none else some .screenshotError
  | .printMsg _ => none

/-- Screenshot files a step writes when it succeeds. -/
def stepShots : Step → List String
  | .screenshot p => [p]
  | _ => []

/-- Standard-output lines a step prints when it succeeds. -/
def stepPrints : Step → List String
  | .printMsg m => [m]
  | _ => []

/-- Observable trace of a run: indices of the steps that began executing,
screenshot files written, and lines printed, each in order. -/
structure Trace where
  executed : List Nat
  shots : List String
  printed : List String
deriving DecidableEq, Repr

/-- Run the `try`-body steps in order starting at index `i`: each step
either succeeds (its effect is recorded and the next runs) or raises,
which aborts the remaining steps and propagates the exception to the
handler. -/
def runSteps (w : World) : Nat → List Step → Trace × Option PWError
  | _, [] => (⟨[], [], []⟩, none)
  | i, s :: rest =>
    match stepOutcome w i s with
    | some e => (⟨[i], [], []⟩, some e)
    | none =>
      let r := runSteps w (i + 1) rest
      (⟨i :: r.1.executed, stepShots s ++ r.1.shots, stepPrints s ++ r.1.printed⟩, r.2)

/-- How the process run of a script ends: `normal` is a clean return from
`main` (CPython then exits with status 0, since no script ever sets an
exit code); `uncaught e` is an exception escaping `main`, which
`asyncio.run` re-raises and CPython turns into a non-zero exit status. -/
inductive ExitStatus where
  | normal
  | uncaught (e : PWError)
deriving DecidableEq, Repr

/-- Process exit status: 0 for a clean return, 1 for an uncaught
exception terminating the interpreter. -/
def exitCode : ExitStatus → Nat
  | .normal => 0
  | .uncaught _ => 1

/-- Result of one whole run: the trace, the exception caught by the
top-level handler (if any), how many times the browser was closed, and
how the process ends. -/
structure RunResult where
  trace : Trace
  caught : Option PWError
  browserClosed : Nat
  ending : ExitStatus
deriving DecidableEq, Repr

/-- The message the `except` handler prints:
`print(f"❌ An error occurred: ...")`, with the exception's text modelled
by the exception class name. -/
def errLine (e : PWError) : String :=
  "❌ An error occurred: " ++
    (match e with
      | .navigationError => "NavigationError"
      | .assertionError => "AssertionError"
      | .elementNotFoundError => "ElementNotFoundError"
      | .screenshotError => "ScreenshotError")

/-- One full run of a script's `main` from the `Running` state, mirroring
its `try`/`except`/`finally`: run the body; on an exception, print the
error line, then attempt the diagnostic screenshot to the script's error
path — if that screenshot itself raises, the new exception escapes the
handler; in every case the `finally` block closes the browser exactly
once before `main` returns or the exception propagates. -/
def runMain (w : World) (s : Script) : RunResult :=
  match runSteps w 0 s.steps with
  | (t, none) => ⟨t, none, 1, .normal⟩
  | (t, some e) =>
    if w.shotOk s.errorPath then
      ⟨⟨t.executed, t.shots ++ [s.errorPath], t.printed ++ [errLine e]⟩, some e, 1, .normal⟩
    else
      ⟨⟨t.executed, t.shots, t.printed ++ [errLine e]⟩, some e, 1, .uncaught .screenshotError⟩

/-- Number of steps that begin executing: every step up to and including
the first failing one, or all of them when none fails. -/
def begunCount (w : World) : Nat → List Step → Nat
  | _, [] => 0
  | i, s :: rest =>
    match stepOutcome w i s with
    | some _ => 1
    | none => begunCount w (i + 1) rest + 1

/-- Screenshot files of all the screenshot steps of a list, in order. -/
def allShots : List Step → List String
  | [] => []
  | s :: rest => stepShots s ++ allShots rest

/-- Printed lines of all the print steps of a list, in order. -/
def allPrints : List Step → List String
  | [] => []
  | s :: rest => stepPrints s ++ allPrints rest

/-- URLs of the `goto` steps of a script, in order. -/
def gotoUrls (s : Script) : List String :=
  s.steps.filterMap fun st =>
    match st with
    | .goto u _ => some u
    | _ => none

/-- Timeout arguments of the visibility assertions of a script, in
order; `none` marks an assertion made without an explicit timeout. -/
def visTimeouts (s : Script) : List (Option Nat) :=
  s.steps.filterMap fun st =>
    match st with
    | .expectVisible _ t => some t
    | _ => none

/-- Port segment of a `http://localhost:PORT/...` URL. -/
def urlPort (u : String) : String :=
  (u.drop 17).take 4

/-- A fully healthy environment: every page reachable, every queried
element visible and present, every screenshot write succeeds. -/
def WorldAllOk (w : World) : Prop :=
  (∀ i u, w.reachable i u = true) ∧ (∀ i q, w.visibleElem i q = true) ∧
  (∀ i q, w.presentElem i q = true) ∧ (∀ p, w.shotOk p = true)

/-- Environment in which everything succeeds. -/
def wAllGood : World :=
  ⟨fun _ _ => true, fun _ _ => true, fun _ _ => true, fun _ => true⟩

/-- Environment in which no URL is reachable (the application is down)
but screenshots still write. -/
def wDown : World :=
  ⟨fun _ _ => false, fun _ _ => true, fun _ _ => true, fun _ => true⟩

/-- Environment in which no URL is reachable and no screenshot write
succeeds (the error-path screenshot itself raises). -/
def wDownNoShot : World :=
  ⟨fun _ _ => false, fun _ _ => true, fun _ _ => true, fun _ => false⟩

/-- Environment in which pages load and headings are visible but no click
target is ever present. -/
def wNoElements : World :=
  ⟨fun _ _ => true, fun _ _ => true, fun _ _ => false, fun _ => true⟩

/-- The steps that begin executing are exactly the contiguous index range
starting at the first index. -/
theorem runSteps_executed (w : World) :
    ∀ (steps : List Step) (k : Nat),
      (runSteps w k steps).1.executed = List.range' k (begunCount w k steps) := by
  intro steps
  induction steps with
  | nil => intro k; rfl
  | cons s rest ih =>
    intro k
    cases h : stepOutcome w k s with
    | some e => simp [runSteps, begunCount, h, List.range'_succ]
    | none => simp [runSteps, begunCount, h, List.range'_succ, ih (k + 1)]

/-- At most all declared steps begin executing. -/
theorem begunCount_le (w : World) :
    ∀ (steps : List Step) (k : Nat), begunCount w k steps ≤ steps.length := by
  intro steps
  induction steps with
  | nil => intro k; simp [begunCount]
  | cons s rest ih =>
    intro k
    cases h : stepOutcome w k s with
    | some e => simp [begunCount, h]
    | none =>
      simp only [begunCount, h, List.length_cons]
      exact Nat.succ_le_succ (ih (k + 1))

/-- When every step before index `i` succeeds and step `i` fails, the run
of the body executes exactly steps `0..i` (shifted by the start index
`k`), records exactly the effects of the successful prefix, and
propagates step `i`'s exception. -/
theorem runSteps_firstFail (w : World) :
    ∀ (steps : List Step) (k i : Nat) (hi : i < steps.length),
      (∀ j, (hj : j < i) → stepOutcome w (k + j) (steps.get ⟨j, Nat.lt_trans hj hi⟩) = none) →
      (stepOutcome w (k + i) (steps.get ⟨i, hi⟩)).isSome = true →
      runSteps w k steps =
        (⟨List.range' k (i + 1), allShots (steps.take i), allPrints (steps.take i)⟩,
          stepOutcome w (k + i) (steps.get ⟨i, hi⟩)) := by
  intro steps
  induction steps with
  | nil => intro k i hi; exact absurd hi (Nat.not_lt_zero i)
  | cons s rest ih =>
    intro k i hi hprev hfail
    cases i with
    | zero =>
      rcases hsome : stepOutcome w (k + 0) ((s :: rest).get ⟨0, hi⟩) with _ | e
      · rw [hsome] at hfail; simp at hfail
      · have hk : stepOutcome w k s = some e := by
          simpa [Nat.add_zero] using hsome
        simp [runSteps, hk, hsome, List.range'_succ, List.take, allShots, allPrints]
    | succ i' =>
      have hs : stepOutcome w k s = none := by
        have := hprev 0 (Nat.succ_pos i')
        simpa [Nat.add_zero] using this
      have hi' : i' < rest.length := Nat.lt_of_succ_lt_succ hi
      have hprev' : ∀ j, (hj : j < i') →
          stepOutcome w ((k + 1) + j) (rest.get ⟨j, Nat.lt_trans hj hi'⟩) = none := by
        intro j hj
        have harith : (k + 1) + j = k + (j + 1) := by omega
        have := hprev (j + 1) (Nat.succ_lt_succ hj)
        rw [harith]
        simpa using this
      have hfail' : (stepOutcome w ((k + 1) + i') (rest.get ⟨i', hi'⟩)).isSome = true := by
        have harith : (k + 1) + i' = k + (i' + 1) := by omega
        rw [harith]
        simpa using hfail
      have hrec := ih (k + 1) i' hi' hprev' hfail'
      have harith : (k + 1) + i' = k + (i' + 1) := by omega
      simp only [runSteps, hs, hrec]
      rw [← harith]
      simp [List.range'_succ, List.take, allShots, allPrints]

/-- The `finally` block closes the browser exactly once on every path. -/
theorem runMain_closed (w : World) (s : Script) :
    (runMain w s).browserClosed = 1 := by
  rcases h : runSteps w 0 s.steps with ⟨t, e⟩
  cases e with
  | none => simp [runMain, h]
  | some e =>
    cases hs : w.shotOk s.errorPath with
    | false => simp [runMain, h, hs]
    | true => simp [runMain, h, hs]

/-- A run ends either normally or with an escaped screenshot failure from
the `except` handler: no caught step exception is ever re-raised. -/
theorem runMain_exit_shape (w : World) (s : Script) :
    (runMain w s).ending = ExitStatus.normal ∨
      (runMain w s).ending = ExitStatus.uncaught PWError.screenshotError := by
  rcases h : runSteps w 0 s.steps with ⟨t, e⟩
  cases e with
  | none => left; simp [runMain, h]
  | some e =>
    cases hs : w.shotOk s.errorPath with
    | false => right; simp [runMain, h, hs]
    | true => left; simp [runMain, h, hs]

/-- In a fully healthy environment every step succeeds. -/
theorem stepOutcome_allOk {w : World} (h : WorldAllOk w) (i : Nat) (s : Step) :
    stepOutcome w i s = none := by
  obtain ⟨hr, hv, hp, hs⟩ := h
  cases s <;> simp [stepOutcome, hr, hv, hp, hs]

/-- In a fully healthy environment the body runs to completion, executing
every step and producing exactly the declared screenshots and prints. -/
theorem runSteps_allOk {w : World} (h : WorldAllOk w) :
    ∀ (steps : List Step) (k : Nat),
      runSteps w k steps =
        (⟨List.range' k steps.length, allShots steps, allPrints steps⟩, none) := by
  intro steps
  induction steps with
  | nil => intro k; rfl
  | cons s rest ih =>
    intro k
    simp [runSteps, stepOutcome_allOk h, ih (k + 1), List.range'_succ, allShots, allPrints]

/-- In a fully healthy environment a whole run returns normally with no
caught exception, having executed every step. -/
theorem runMain_allOk {w : World} (h : WorldAllOk w) (s : Script) :
    runMain w s =
      ⟨⟨List.range' 0 s.steps.length, allShots s.steps, allPrints s.steps⟩,
        none, 1, ExitStatus.normal⟩ := by
  unfold runMain
  rw [runSteps_allOk h s.steps 0]

/-- When no URL is reachable and the error screenshot writes, a run whose
first step is a `goto` stops there, screenshots the error path, prints the
error line and returns normally. -/
theorem runMain_down (w : World) (s : Script) (u : String) (t : Nat) (rest : List Step)
    (hur : ∀ i u2, w.reachable i u2 = false) (hshot : w.shotOk s.errorPath = true)
    (hsteps : s.steps = Step.goto u t :: rest) :
    runMain w s =
      ⟨⟨[0], [s.errorPath], [errLine PWError.navigationError]⟩,
        some PWError.navigationError, 1, ExitStatus.normal⟩ := by
  have h0 : runSteps w 0 s.steps = (⟨[0], [], []⟩, some PWError.navigationError) := by
    rw [hsteps]
    simp [runSteps, stepOutcome, hur]
  simp [runMain, h0, hshot]

/-- Claim C2: for every run of every script, the browser session is
closed exactly once on every exit path from the running state, whether
the run completes, fails with a caught exception, or fails again in the
error handler. -/
theorem browser_closed_exactly_once :
    (∀ w, (runMain w lazyScript).browserClosed = 1) ∧
    (∀ w, (runMain w mobileHomeScript).browserClosed = 1) ∧
    (∀ w, (runMain w mobileProductsScript).browserClosed = 1) :=
  ⟨fun w => runMain_closed w lazyScript, fun w => runMain_closed w mobileHomeScript,
    fun w => runMain_closed w mobileProductsScript⟩

/-- Claim C1, counterexample: a run of the lazy-loading script in which
the navigation step fails (a step failure occurs and is caught) but the
error-path screenshot also raises ends with a non-zero process exit
status, refuting "after any step failure the process exits normally with
exit status 0". -/
theorem exit_zero_after_failure_refuted :
    (runMain wDownNoShot lazyScript).caught = some PWError.navigationError ∧
    (runMain wDownNoShot lazyScript).browserClosed = 1 ∧
    exitCode (runMain wDownNoShot lazyScript).ending ≠ 0 := by
  decide

/-- Claim C1, amended: after any caught step failure the run still
reaches teardown (the browser is closed), and, provided the diagnostic
error-path screenshot succeeds, the process exits normally with status 0;
the scripts themselves never set a non-zero exit code. -/
theorem step_failure_reaches_teardown (s : Script) (w : World) (e : PWError)
    (hfail : (runSteps w 0 s.steps).2 = some e) :
    (runMain w s).caught = some e ∧
    (runMain w s).browserClosed = 1 ∧
    (w.shotOk s.errorPath = true → exitCode (runMain w s).ending = 0) := by
  rcases h : runSteps w 0 s.steps with ⟨t, e2⟩
  rw [h] at hfail
  cases e2 with
  | none => exact absurd hfail (by simp)
  | some e3 =>
    have he : e3 = e := by simpa using hfail
    subst he
    refine ⟨?_, runMain_closed w s, ?_⟩
    · cases hs : w.shotOk s.errorPath <;> simp [runMain, h, hs]
    · intro hs
      simp [runMain, h, hs, exitCode]

/-- Witness for the amended claim C1 at the lazy-loading script with the
application down and a working error screenshot. -/
theorem step_failure_reaches_teardown_witness :
    (runSteps wDown 0 lazyScript.steps).2 = some PWError.navigationError ∧
    (runMain wDown lazyScript).caught = some PWError.navigationError ∧
    (runMain wDown lazyScript).browserClosed = 1 ∧
    exitCode (runMain wDown lazyScript).ending = 0 := by
  have h := step_failure_reaches_teardown lazyScript wDown PWError.navigationError (by decide)
  exact ⟨by decide, h.1, h.2.1, h.2.2 rfl⟩

/-- Claim C8: when the diagnostic screenshot taken inside the error
handler itself raises, the `finally` block still closes the browser
before the new exception propagates out of `main`; the step exception had
been caught, and the run ends with the escaped screenshot failure. -/
theorem error_shot_failure_still_closes (s : Script) (w : World) (e : PWError)
    (hfail : (runSteps w 0 s.steps).2 = some e)
    (hshot : w.shotOk s.errorPath = false) :
    (runMain w s).browserClosed = 1 ∧
    (runMain w s).caught = some e ∧
    (runMain w s).ending = ExitStatus.uncaught PWError.screenshotError := by
  rcases h : runSteps w 0 s.steps with ⟨t, e2⟩
  rw [h] at hfail
  cases e2 with
  | none => exact absurd hfail (by simp)
  | some e3 =>
    have he : e3 = e := by simpa using hfail
    subst he
    exact ⟨runMain_closed w s, by simp [runMain, h, hshot], by simp [runMain, h, hshot]⟩

/-- Witness for claim C8 at the lazy-loading script with the application
down and a failing error screenshot. -/
theorem error_shot_failure_still_closes_witness :
    (runSteps wDownNoShot 0 lazyScript.steps).2 = some PWError.navigationError ∧
    (runMain wDownNoShot lazyScript).browserClosed = 1 ∧
    (runMain wDownNoShot lazyScript).ending = ExitStatus.uncaught PWError.screenshotError := by
  have h := error_shot_failure_still_closes lazyScript wDownNoShot PWError.navigationError
    (by decide) rfl
  exact ⟨by decide, h.1, h.2.2⟩

/-- Claim C9: the mobile-products script navigates to
`http://localhost:5174/products`, on host port 5174, while the other two
scripts navigate to port 5173 URLs. -/
theorem mobile_products_distinct_port :
    gotoUrls mobileProductsScript = ["http://localhost:5174/products"] ∧
    gotoUrls mobileHomeScript = ["http://localhost:5173/"] ∧
    gotoUrls lazyScript = ["http://localhost:5173/", "http://localhost:5173/admin/login"] ∧
    urlPort "http://localhost:5174/products" = "5174" ∧
    urlPort "http://localhost:5173/" = "5173" ∧
    urlPort "http://localhost:5174/products" ≠ urlPort "http://localhost:5173/" := by
  refine ⟨rfl, rfl, rfl, ?_, ?_, ?_⟩ <;> decide

/-- Claim C10: every visibility assertion of the lazy-loading script is
made without an explicit timeout argument (the library default applies),
while the visibility assertions of the two mobile scripts pass an
explicit 30000 ms timeout. -/
theorem lazy_default_visibility_timeouts :
    visTimeouts lazyScript = [none, none, none, none] ∧
    visTimeouts mobileHomeScript = [some 30000] ∧
    visTimeouts mobileProductsScript = [some 30000] :=
  ⟨rfl, rfl, rfl⟩

/-- Claim C3: steps execute strictly in declared order, and when step `i`
is the first to fail, exactly steps `0..i` execute — no step among
`i+1..n` runs; in every run the executed steps form an initial range of
the declared indices. -/
theorem steps_in_order_failure_aborts (steps : List Step) (w : World) (i : Nat)
    (hi : i < steps.length)
    (hprev : ∀ j, (hj : j < i) →
      stepOutcome w j (steps.get ⟨j, Nat.lt_trans hj hi⟩) = none)
    (hfail : (stepOutcome w i (steps.get ⟨i, hi⟩)).isSome = true) :
    (runSteps w 0 steps).1.executed = List.range (i + 1) ∧
    ∀ w2, ∃ n, n ≤ steps.length ∧ (runSteps w2 0 steps).1.executed = List.range n := by
  constructor
  · have hprev0 : ∀ j, (hj : j < i) →
        stepOutcome w (0 + j) (steps.get ⟨j, Nat.lt_trans hj hi⟩) = none := by
      intro j hj
      rw [Nat.zero_add]
      exact hprev j hj
    have hfail0 : (stepOutcome w (0 + i) (steps.get ⟨i, hi⟩)).isSome = true := by
      rw [Nat.zero_add]
      exact hfail
    have hff := runSteps_firstFail w steps 0 i hi hprev0 hfail0
    rw [hff, List.range_eq_range']
  · intro w2
    refine ⟨begunCount w2 0 steps, begunCount_le w2 steps 0, ?_⟩
    rw [runSteps_executed w2 steps 0, List.range_eq_range']

/-- Witness for claim C3: under `wNoElements` the lazy-loading script's
first click (declared step index 3) is the first failure, and exactly
steps 0, 1, 2, 3 execute. -/
theorem steps_in_order_failure_aborts_witness :
    3 < lazyScript.steps.length ∧
    (runSteps wNoElements 0 lazyScript.steps).1.executed = List.range 4 := by
  have h := steps_in_order_failure_aborts lazyScript.steps wNoElements 3 (by decide)
    (by decide) (by decide)
  exact ⟨by decide, h.1⟩

/-- Outcome of a run in a fully healthy environment: no caught
exception, a normal return, exactly the one declared success screenshot,
and no error screenshot. -/
def healthyOutcome (w : World) (s : Script) (succPath : String) : Prop :=
  (runMain w s).caught = none ∧ (runMain w s).ending = ExitStatus.normal ∧
  (runMain w s).trace.shots = [succPath] ∧ s.errorPath ∉ (runMain w s).trace.shots

/-- Claim C4: when the application is reachable and every queried element
is visible and present (and screenshots write), each script's run
completes with no caught exception and produces exactly one success
screenshot, at its declared success path, and zero error screenshots. -/
theorem healthy_run_single_success_shot (w : World) (h : WorldAllOk w) :
    healthyOutcome w lazyScript "jules-scratch/verification/lazy_loading_success.png" ∧
    healthyOutcome w mobileHomeScript
      "jules-scratch/phase2_verification/mobile_home_analysis.png" ∧
    healthyOutcome w mobileProductsScript
      "jules-scratch/verification/mobile_products_before.png" := by
  refine ⟨?_, ?_, ?_⟩ <;>
    (simp only [healthyOutcome]
     rw [runMain_allOk h]
     exact ⟨rfl, rfl, rfl, by decide⟩)

/-- Witness for claim C4 in the all-good environment. -/
theorem healthy_run_single_success_shot_witness :
    healthyOutcome wAllGood lazyScript "jules-scratch/verification/lazy_loading_success.png" ∧
    healthyOutcome wAllGood mobileHomeScript
      "jules-scratch/phase2_verification/mobile_home_analysis.png" ∧
    healthyOutcome wAllGood mobileProductsScript
      "jules-scratch/verification/mobile_products_before.png" :=
  healthy_run_single_success_shot wAllGood
    ⟨fun _ _ => rfl, fun _ _ => rfl, fun _ _ => rfl, fun _ => rfl⟩

/-- Outcome of a run against an unreachable application: exactly one
screenshot, at the script's error path, exactly the one failure line
printed, the navigation failure caught, and a clean exit. -/
def unreachableOutcome (w : World) (s : Script) : Prop :=
  (runMain w s).trace.shots = [s.errorPath] ∧
  (runMain w s).trace.printed = [errLine PWError.navigationError] ∧
  (runMain w s).caught = some PWError.navigationError ∧
  exitCode (runMain w s).ending = 0

/-- Claim C5: when the application is unreachable, each script's first
step — a `goto` with a 60000 ms timeout — fails with the navigation
error, the run produces exactly one error screenshot and prints the
failure message, and the run still terminates cleanly. -/
theorem unreachable_app_error_shot (w : World)
    (hur : ∀ i u, w.reachable i u = false) (hshot : ∀ p, w.shotOk p = true) :
    unreachableOutcome w lazyScript ∧ unreachableOutcome w mobileHomeScript ∧
    unreachableOutcome w mobileProductsScript ∧
    lazyScript.steps[0]? = some (Step.goto "http://localhost:5173/" 60000) ∧
    mobileHomeScript.steps[0]? = some (Step.goto "http://localhost:5173/" 60000) ∧
    mobileProductsScript.steps[0]? = some (Step.goto "http://localhost:5174/products" 60000) := by
  refine ⟨?_, ?_, ?_, rfl, rfl, rfl⟩
  · simp only [unreachableOutcome]
    rw [runMain_down w lazyScript "http://localhost:5173/" 60000 _ hur (hshot _) rfl]
    exact ⟨rfl, rfl, rfl, rfl⟩
  · simp only [unreachableOutcome]
    rw [runMain_down w mobileHomeScript "http://localhost:5173/" 60000 _ hur (hshot _) rfl]
    exact ⟨rfl, rfl, rfl, rfl⟩
  · simp only [unreachableOutcome]
    rw [runMain_down w mobileProductsScript "http://localhost:5174/products" 60000 _ hur
      (hshot _) rfl]
    exact ⟨rfl, rfl, rfl, rfl⟩

/-- Witness for claim C5 in the application-down environment. -/
theorem unreachable_app_error_shot_witness :
    unreachableOutcome wDown lazyScript ∧ unreachableOutcome wDown mobileHomeScript ∧
    unreachableOutcome wDown mobileProductsScript := by
  have h := unreachable_app_error_shot wDown (fun _ _ => rfl) (fun _ => rfl)
  exact ⟨h.1, h.2.1, h.2.2.1⟩

/-- Claim C6: a click step whose target element is absent fails with the
element-not-found error, which is caught by the single top-level handler
of the run exactly like the other error kinds — logged to standard
output, converted into the diagnostic error screenshot — and never
re-raised: every run ends either normally or with the handler's own
screenshot failure, never with a step error. -/
theorem click_absent_element_not_found (w : World) (i : Nat) (q : Query)
    (hi : i < lazyScript.steps.length)
    (hstep : lazyScript.steps.get ⟨i, hi⟩ = Step.click q)
    (habsent : w.presentElem i q = false)
    (hprev : ∀ j, (hj : j < i) →
      stepOutcome w j (lazyScript.steps.get ⟨j, Nat.lt_trans hj hi⟩) = none) :
    (runMain w lazyScript).caught = some PWError.elementNotFoundError ∧
    (runMain w lazyScript).trace.printed.getLast? =
      some (errLine PWError.elementNotFoundError) ∧
    (w.shotOk lazyScript.errorPath = true →
      (runMain w lazyScript).trace.shots.getLast? = some lazyScript.errorPath) ∧
    ∀ w2, (runMain w2 lazyScript).ending = ExitStatus.normal ∨
      (runMain w2 lazyScript).ending = ExitStatus.uncaught PWError.screenshotError := by
  have hfail0 : stepOutcome w (0 + i) (lazyScript.steps.get ⟨i, hi⟩) =
      some PWError.elementNotFoundError := by
    rw [Nat.zero_add, hstep]
    simp [stepOutcome, habsent]
  have hprev0 : ∀ j, (hj : j < i) →
      stepOutcome w (0 + j) (lazyScript.steps.get ⟨j, Nat.lt_trans hj hi⟩) = none := by
    intro j hj
    rw [Nat.zero_add]
    exact hprev j hj
  have hff := runSteps_firstFail w lazyScript.steps 0 i hi hprev0 (by rw [hfail0]; rfl)
  rw [hfail0] at hff
  refine ⟨?_, ?_, ?_, fun w2 => runMain_exit_shape w2 lazyScript⟩
  · cases hs : w.shotOk lazyScript.errorPath <;> simp [runMain, hff, hs]
  · cases hs : w.shotOk lazyScript.errorPath <;>
      simp [runMain, hff, hs, List.getLast?_concat]
  · intro hs
    simp [runMain, hff, hs, List.getLast?_concat]

/-- Witness for claim C6: under `wNoElements` the lazy-loading script's
first click (step index 3, the navigation-scoped Products link) has an
absent target. -/
theorem click_absent_element_not_found_witness :
    (runMain wNoElements lazyScript).caught = some PWError.elementNotFoundError ∧
    (runMain wNoElements lazyScript).trace.printed.getLast? =
      some (errLine PWError.elementNotFoundError) ∧
    (runMain wNoElements lazyScript).trace.shots.getLast? = some lazyScript.errorPath := by
  have h := click_absent_element_not_found wNoElements 3
    ⟨"link", some "Products", false, some "navigation"⟩ (by decide) rfl rfl (by decide)
  exact ⟨h.1, h.2.1, h.2.2.1 rfl⟩

/-- Claim C7: the mobile-home script navigates to the base URL
`http://localhost:5173/`, waits for the heading "Capture Every Moment"
to be visible with a 30000 ms timeout, and on success writes its
screenshot to the declared success path. -/
theorem mobile_home_scenario :
    mobileHomeScript.steps[0]? = some (Step.goto "http://localhost:5173/" 60000) ∧
    mobileHomeScript.steps[1]? =
      some (Step.expectVisible ⟨"heading", some "Capture Every Moment", false, none⟩
        (some 30000)) ∧
    ∀ w, WorldAllOk w →
      (runMain w mobileHomeScript).caught = none ∧
      (runMain w mobileHomeScript).trace.shots =
        ["jules-scratch/phase2_verification/mobile_home_analysis.png"] := by
  refine ⟨rfl, rfl, fun w h => ?_⟩
  rw [runMain_allOk h]
  exact ⟨rfl, rfl⟩

/-- Witness for claim C7 in the all-good environment. -/
theorem mobile_home_scenario_witness :
    (runMain wAllGood mobileHomeScript).caught = none ∧
    (runMain wAllGood mobileHomeScript).trace.shots =
      ["jules-scratch/phase2_verification/mobile_home_analysis.png"] :=
  mobile_home_scenario.2.2 wAllGood
    ⟨fun _ _ => rfl, fun _ _ => rfl, fun _ _ => rfl, fun _ => rfl⟩
